import Mathlib

/-!
Verification of the DENM annotator core (src/index.tsx): the incident-record
data model, the field-update derivation engine (`updateField`), the box
mutation operation (`updateBox`), the export transform (`toStorageForm`,
from `downloadJson`), and the pointer-drag geometry (`handleMove` of
`BoxOverlay`).  JavaScript numbers are modelled as rationals; JSON null is
modelled by `Option`.
-/

/-- Spatiotemporal box `[t, ymin, xmin, ymax, xmax]`: normalized t in 0-1,
coordinates in the 0-1000 grid (source type `IncidentBox`). -/
structure IncidentBox where
  t : ℚ
  ymin : ℚ
  xmin : ℚ
  ymax : ℚ
  xmax : ℚ
deriving DecidableEq, Repr

/-- The per-item incident record (source interface `IncidentData`). -/
structure IncidentData where
  incident : Int
  message_type : String
  cause_code : Option Int
  sub_cause_code : Option Int
  cause_text : Option String
  sub_cause_text : Option String
  box_2d : List IncidentBox
  description : String
deriving DecidableEq, Repr

/-- The fixed DENM cause-code table (source constant `DENM_MAPPING.causeCodes`):
cause code, cause name, and the sub-cause-code table of that cause. -/
def DENM_MAPPING : List (Int × String × List (Int × String)) := [
  (2, "accident", [(7, "unsecured accident")]),
  (3, "roadworks",
    [(2, "road marking work"), (3, "slow moving road maintenance"),
     (4, "short-term stationary roadworks")]),
  (6, "adverseWeatherCondition-adhesion",
    [(0, "slippery road (generic)"), (2, "fuel on road"), (3, "mud on road"),
     (5, "ice on road"), (6, "black ice on road"), (7, "oil on road"),
     (8, "loose chippings")]),
  (9, "hazardousLocation-surfaceCondition",
    [(0, "flooding"), (5, "snow drifts")]),
  (10, "hazardousLocation-obstacleOnTheRoad",
    [(0, "objects on the road"), (1, "shed load"), (4, "large objects"),
     (5, "fallen trees")]),
  (11, "hazardousLocation-animalOnTheRoad",
    [(0, "animals on roadway"), (2, "herd of animals"), (4, "large animals")]),
  (12, "humanPresenceOnTheRoad",
    [(0, "people on roadway"), (1, "children on roadway"),
     (2, "cyclists on roadway")]),
  (14, "wrongWayDriving", [(0, "wrong way driving")]),
  (15, "rescueAndRecoveryWorkInProgress",
    [(0, "rescue and recovery work in progress")]),
  (17, "adverseWeatherCondition-ExtremeWeather", [(1, "strong winds")]),
  (18, "adverseWeatherCondition-Visibility",
    [(0, "visibility reduced (generic)"), (1, "visibility reduced due to fog"),
     (2, "visibility reduced due to smoke"),
     (3, "visibility reduced due to heavy snowfall"),
     (6, "visibility reduced due to low sun glare")]),
  (19, "adverseWeatherCondition-Precipitation",
    [(1, "heavy rain"), (2, "heavy snowfall")]),
  (94, "vehicleBreakdown", [(2, "broken down vehicle")])]

/-- Lookup `DENM_MAPPING.causeCodes[String(c)]`. -/
def causeEntry (c : Int) : Option (String × List (Int × String)) :=
  DENM_MAPPING.lookup c

/-- Lookup `DENM_MAPPING.causeCodes[String(c)].subCauseCodes[String(s)]`
(with the `|| null` coercion of a missing key). -/
def subCauseText (c s : Int) : Option String :=
  (causeEntry c).bind (fun info => info.2.lookup s)

/-- Lookup `DENM_MAPPING.causeCodes[String(cc)]` for a nullable cause code:
the stringified null key misses the table. -/
def lookupCause : Option Int → Option (String × List (Int × String))
  | some c => causeEntry c
  | none => none

/-- The default boxes installed when the incident flag is switched on and
`box_2d` does not already have length 2 (source line 438). -/
def defaultBoxes : List IncidentBox :=
  [⟨0, 0, 0, 0, 0⟩, ⟨1, 0, 0, 0, 0⟩]

/-- A typed field update `(fieldName, newValue)` for `updateField`; JSON null
arguments are `none`. -/
inductive FieldUpdate where
  | setIncident (v : Int)
  | setMessageType (v : String)
  | setCauseCode (v : Option Int)
  | setSubCauseCode (v : Option Int)
  | setCauseText (v : Option String)
  | setSubCauseText (v : Option String)
  | setBox2d (v : List IncidentBox)
  | setDescription (v : String)
deriving DecidableEq, Repr

/-- The derivation engine (source `updateField`, lines 417-480): the raw value
is assigned first, then the auto-logic for the `incident`, `cause_code` and
`sub_cause_code` keys runs.  In the sub-cause branch with a non-null, non-zero
value, when the current cause has no table entry the sub-cause text is left
untouched, exactly as in the source. -/
def updateField (d : IncidentData) : FieldUpdate → IncidentData
  | .setIncident v =>
      let d1 := { d with incident := v }
      if v = 1 then
        { d1 with message_type := "DENM",
                  box_2d := if d1.box_2d.length = 2 then d1.box_2d else defaultBoxes }
      else
        { d1 with message_type := "none", cause_code := none, sub_cause_code := none,
                  cause_text := none, sub_cause_text := none, box_2d := [] }
  | .setCauseCode v =>
      let d1 := { d with cause_code := v }
      let d2 :=
        if v = none ∨ v = some 0 then
          { d1 with cause_code := none, cause_text := none }
        else
          { d1 with cause_text := v.bind (fun n => (causeEntry n).map Prod.fst) }
      { d2 with sub_cause_code := none, sub_cause_text := none }
  | .setSubCauseCode v =>
      let d1 := { d with sub_cause_code := v }
      if v = none ∨ v = some 0 then
        { d1 with sub_cause_code := none, sub_cause_text := none }
      else
        match lookupCause d1.cause_code, v with
        | some info, some n => { d1 with sub_cause_text := info.2.lookup n }
        | _, _ => d1
  | .setMessageType v => { d with message_type := v }
  | .setCauseText v => { d with cause_text := v }
  | .setSubCauseText v => { d with sub_cause_text := v }
  | .setBox2d v => { d with box_2d := v }
  | .setDescription v => { d with description := v }

/-- Clamp to the 0-1000 grid: `Math.max(0, Math.min(1000, x))`. -/
def clamp1000 (x : ℚ) : ℚ := max 0 (min 1000 x)

/-- Clamp then round: `Math.round(Math.max(0, Math.min(1000, x)))`.
JavaScript `Math.round` is `floor(x + 1/2)`, which is Mathlib `round` on ℚ. -/
def clampRound (x : ℚ) : ℚ := ((round (clamp1000 x) : ℤ) : ℚ)

/-- The coordinate normalization performed by `updateBox` on a candidate box:
the time coordinate stays a float, the four space coordinates are clamped and
rounded (source lines 495-501). -/
def clampBox (b : IncidentBox) : IncidentBox :=
  ⟨b.t, clampRound b.ymin, clampRound b.xmin, clampRound b.ymax, clampRound b.xmax⟩

/-- The box mutation operation (source `updateBox`, lines 482-509): guarded by
`incident === 1 && box_2d.length === 2`; on the failed guard the previous
state is returned unchanged. -/
def updateBox (d : IncidentData) (idx : Nat) (newBox : IncidentBox) : IncidentData :=
  if d.incident = 1 ∧ d.box_2d.length = 2 then
    { d with box_2d := d.box_2d.set idx (clampBox newBox) }
  else d

/-- JavaScript `x || null` on a nullable number: 0 and null are falsy. -/
def jsOrNullInt : Option Int → Option Int
  | some n => if n = 0 then none else some n
  | none => none

/-- JavaScript `x || null` on a nullable string: the empty string and null are
falsy. -/
def jsOrNullStr : Option String → Option String
  | some s => if s = "" then none else some s
  | none => none

/-- The export normalization `cleanParsed` built by `downloadJson` (source
lines 522-531).  On our typed model `incident || 0` and `description || ""`
are the identity, and `box_2d || []` is the identity because a JavaScript
array is always truthy. -/
def toStorageForm (d : IncidentData) : IncidentData :=
  { incident := d.incident,
    message_type := if d.incident = 1 then "DENM" else "none",
    cause_code := if d.incident = 1 then jsOrNullInt d.cause_code else none,
    sub_cause_code := if d.incident = 1 then jsOrNullInt d.sub_cause_code else none,
    cause_text := if d.incident = 1 then jsOrNullStr d.cause_text else none,
    sub_cause_text := if d.incident = 1 then jsOrNullStr d.sub_cause_text else none,
    box_2d := if d.incident = 1 then d.box_2d else [],
    description := d.description }

/-- Drag modes of the overlay state machine (source `BoxOverlay.dragState.mode`). -/
inductive DragMode where
  | move | nw | ne | sw | se | n | s | e | w | draw
deriving DecidableEq, Repr

/-- The container rectangle captured at drag start (`DOMRect`). -/
structure DOMRect where
  left : ℚ
  top : ℚ
  width : ℚ
  height : ℚ
deriving DecidableEq, Repr

/-- Pixel-to-normalized conversion `(val / dim) * 1000` (source line 1096). -/
def normalizeCoord (val dim : ℚ) : ℚ := val / dim * 1000

/-- Per-mode coordinate adjustment of the non-draw drag modes (source lines
1135-1153), returning `(nYmin, nXmin, nYmax, nXmax)`.  The `draw` row is
unreachable: `handleMove` dispatches draw before this function. -/
def applyMode (m : DragMode) (dx dy : ℚ) (b : IncidentBox) : ℚ × ℚ × ℚ × ℚ :=
  match m with
  | .move => (b.ymin + dy, b.xmin + dx, b.ymax + dy, b.xmax + dx)
  | .nw => (b.ymin + dy, b.xmin + dx, b.ymax, b.xmax)
  | .ne => (b.ymin + dy, b.xmin, b.ymax, b.xmax + dx)
  | .sw => (b.ymin, b.xmin + dx, b.ymax + dy, b.xmax)
  | .se => (b.ymin, b.xmin, b.ymax + dy, b.xmax + dx)
  | .n => (b.ymin + dy, b.xmin, b.ymax, b.xmax)
  | .s => (b.ymin, b.xmin, b.ymax + dy, b.xmax)
  | .w => (b.ymin, b.xmin + dx, b.ymax, b.xmax)
  | .e => (b.ymin, b.xmin, b.ymax, b.xmax + dx)
  | .draw => (b.ymin, b.xmin, b.ymax, b.xmax)

/-- The pointer-move handler of a drag (source `BoxOverlay.handleMove`, lines
1091-1170), as a pure function from the drag state and the current pointer
position to the candidate box passed to `updateBox` (`none` when the handler
returns without updating: degenerate rectangle, or sub-threshold draw travel).
The source threshold test `Math.sqrt(dx*dx + dy*dy) < 15` is embedded in the
equivalent squared form `dx*dx + dy*dy < 225`. -/
def handleMove (mode : DragMode) (startX startY : ℚ) (startBox : IncidentBox)
    (rect : DOMRect) (clientX clientY : ℚ) : Option IncidentBox :=
  if rect.width = 0 ∨ rect.height = 0 then none
  else if mode = DragMode.draw then
    let dx := clientX - startX
    let dy := clientY - startY
    if dx * dx + dy * dy < 225 then none
    else
      let startXRel := normalizeCoord (startX - rect.left) rect.width
      let startYRel := normalizeCoord (startY - rect.top) rect.height
      let currXRel := normalizeCoord (clientX - rect.left) rect.width
      let currYRel := normalizeCoord (clientY - rect.top) rect.height
      some ⟨startBox.t,
            clamp1000 (min startYRel currYRel),
            clamp1000 (min startXRel currXRel),
            clamp1000 (max startYRel currYRel),
            clamp1000 (max startXRel currXRel)⟩
  else
    let dx := (clientX - startX) / rect.width * 1000
    let dy := (clientY - startY) / rect.height * 1000
    let r := applyMode mode dx dy startBox
    some ⟨startBox.t,
          clamp1000 (min r.1 r.2.2.1),
          clamp1000 (min r.2.1 r.2.2.2),
          clamp1000 (max r.1 r.2.2.1),
          clamp1000 (max r.2.1 r.2.2.2)⟩

/-- Invariant 1 of the spec: a cleared incident flag forces the all-clear
record shape. -/
def Inv1 (d : IncidentData) : Prop :=
  d.incident = 0 →
    d.message_type = "none" ∧ d.cause_code = none ∧ d.sub_cause_code = none ∧
    d.cause_text = none ∧ d.sub_cause_text = none ∧ d.box_2d = []

/-- Invariant 2 of the spec: a set incident flag forces DENM and two boxes. -/
def Inv2 (d : IncidentData) : Prop :=
  d.incident = 1 → d.message_type = "DENM" ∧ d.box_2d.length = 2

/-- Boolean form of invariant 3: a set sub-cause code requires a set cause
code whose sub-cause table has the sub-cause as a key. -/
def inv3b (d : IncidentData) : Bool :=
  match d.sub_cause_code with
  | none => true
  | some s =>
      match d.cause_code with
      | none => false
      | some c => (subCauseText c s).isSome

/-- Invariant 3 of the spec. -/
def Inv3 (d : IncidentData) : Prop := inv3b d = true

/-- The four space coordinates of a box are integers (denominator 1) lying in
[0,1000]. -/
def CoordsWF (b : IncidentBox) : Prop :=
  b.ymin.den = 1 ∧ 0 ≤ b.ymin ∧ b.ymin ≤ 1000 ∧
  b.xmin.den = 1 ∧ 0 ≤ b.xmin ∧ b.xmin ≤ 1000 ∧
  b.ymax.den = 1 ∧ 0 ≤ b.ymax ∧ b.ymax ≤ 1000 ∧
  b.xmax.den = 1 ∧ 0 ≤ b.xmax ∧ b.xmax ≤ 1000

/-- Well-formedness of a single stored box per invariant 4 of the spec: the
four coordinates are integers (denominator 1) in [0,1000] and t lies in [0,1]. -/
def BoxWF (b : IncidentBox) : Prop :=
  0 ≤ b.t ∧ b.t ≤ 1 ∧ CoordsWF b

/-- Invariant 4 of the spec, over all stored boxes. -/
def Inv4 (d : IncidentData) : Prop := ∀ b ∈ d.box_2d, BoxWF b

/-- All four record invariants of spec section 3. -/
def Invariants (d : IncidentData) : Prop := Inv1 d ∧ Inv2 d ∧ Inv3 d ∧ Inv4 d

instance (d : IncidentData) : Decidable (Inv1 d) := by unfold Inv1; infer_instance
instance (d : IncidentData) : Decidable (Inv2 d) := by unfold Inv2; infer_instance
instance (d : IncidentData) : Decidable (Inv3 d) := by unfold Inv3; infer_instance
instance (b : IncidentBox) : Decidable (CoordsWF b) := by unfold CoordsWF; infer_instance
instance (b : IncidentBox) : Decidable (BoxWF b) := by unfold BoxWF; infer_instance
instance (d : IncidentData) : Decidable (Inv4 d) := by unfold Inv4; infer_instance
instance (d : IncidentData) : Decidable (Invariants d) := by unfold Invariants; infer_instance

/-- The condition under which a field update keeps the section-3 invariants:
any incident or description write; a message-type write matching the current
flag; a cause write unless the record has a cleared flag and the value is a
real code; a sub-cause write clearing the field or naming a key of the
current cause table; derived-text writes that respect the all-clear shape;
a box write respecting invariants 1, 2 and 4. -/
def ValidUpdate (d : IncidentData) : FieldUpdate → Prop
  | .setIncident _ => True
  | .setMessageType v => (d.incident = 0 → v = "none") ∧ (d.incident = 1 → v = "DENM")
  | .setCauseCode v => d.incident ≠ 0 ∨ v = none ∨ v = some 0
  | .setSubCauseCode v => v = none ∨ v = some 0 ∨
      (match d.cause_code, v with
       | some c, some n => (subCauseText c n).isSome = true
       | _, _ => False)
  | .setCauseText v => d.incident = 0 → v = none
  | .setSubCauseText v => d.incident = 0 → v = none
  | .setBox2d v => (d.incident = 0 → v = []) ∧ (d.incident = 1 → v.length = 2) ∧
      ∀ b ∈ v, BoxWF b
  | .setDescription _ => True

/-! Concrete records used by scenario theorems and witnesses. -/

/-- A DENM record with incident set, no cause selected, and the two default
boxes. -/
def recDenm : IncidentData :=
  { incident := 1, message_type := "DENM", cause_code := none, sub_cause_code := none,
    cause_text := none, sub_cause_text := none, box_2d := defaultBoxes, description := "" }

/-- An all-clear record with the incident flag off. -/
def recNone : IncidentData :=
  { incident := 0, message_type := "none", cause_code := none, sub_cause_code := none,
    cause_text := none, sub_cause_text := none, box_2d := [], description := "" }

/-- The record of the move-clamp scenario: first keyframe box (0.1, 0, 0, 100, 100). -/
def recMove : IncidentData :=
  { recDenm with box_2d := [⟨1/10, 0, 0, 100, 100⟩, ⟨1, 0, 0, 0, 0⟩] }

/-- The record of the draw scenario: first keyframe at t = 0.3. -/
def recDraw : IncidentData :=
  { recDenm with box_2d := [⟨3/10, 0, 0, 0, 0⟩, ⟨1, 0, 0, 0, 0⟩] }

/-- The candidate box produced by the draw-scenario gesture before rounding. -/
def drawCandidate : IncidentBox := ⟨3/10, 500/3, 125, 2000/3, 625⟩

/-! Helper lemmas about clamping, rounding and invariant 3. -/

theorem round_mono_rat {a b : ℚ} (h : a ≤ b) : round a ≤ round b := by
  rw [round_eq, round_eq]
  exact Int.floor_le_floor (by linarith)

theorem clamp1000_nonneg (x : ℚ) : 0 ≤ clamp1000 x := le_max_left _ _

theorem clamp1000_le (x : ℚ) : clamp1000 x ≤ 1000 :=
  max_le (by norm_num) (min_le_left _ _)

theorem clamp1000_mono {a b : ℚ} (h : a ≤ b) : clamp1000 a ≤ clamp1000 b :=
  max_le_max le_rfl (min_le_min le_rfl h)

theorem clampRound_den (x : ℚ) : (clampRound x).den = 1 := Rat.den_intCast _

theorem clampRound_nonneg (x : ℚ) : 0 ≤ clampRound x := by
  unfold clampRound
  have h : (0:ℤ) ≤ round (clamp1000 x) := by
    have h2 := round_mono_rat (clamp1000_nonneg x)
    simpa using h2
  exact_mod_cast h

theorem clampRound_le (x : ℚ) : clampRound x ≤ 1000 := by
  unfold clampRound
  have h : round (clamp1000 x) ≤ (1000:ℤ) := by
    have h2 := round_mono_rat (clamp1000_le x)
    simpa using h2
  exact_mod_cast h

theorem clampRound_mono {a b : ℚ} (h : a ≤ b) : clampRound a ≤ clampRound b := by
  unfold clampRound
  exact_mod_cast round_mono_rat (clamp1000_mono h)

theorem clampBox_coordsWF (b : IncidentBox) : CoordsWF (clampBox b) :=
  ⟨clampRound_den _, clampRound_nonneg _, clampRound_le _,
   clampRound_den _, clampRound_nonneg _, clampRound_le _,
   clampRound_den _, clampRound_nonneg _, clampRound_le _,
   clampRound_den _, clampRound_nonneg _, clampRound_le _⟩

theorem clamp1000_of_mem {x : ℚ} (h0 : 0 ≤ x) (h1 : x ≤ 1000) : clamp1000 x = x := by
  unfold clamp1000
  rw [min_eq_right h1, max_eq_right h0]

theorem clamp1000_nonpos {x : ℚ} (h : x ≤ 0) : clamp1000 x = 0 := by
  unfold clamp1000
  rw [min_eq_right (le_trans h (by norm_num)), max_eq_left h]

theorem clamp1000_big {x : ℚ} (h : 1000 ≤ x) : clamp1000 x = 1000 := by
  unfold clamp1000
  rw [min_eq_left h, max_eq_right (by norm_num)]

theorem clampRound_eval (x : ℚ) (z : ℤ) (c : ℚ) (h0 : 0 ≤ x) (h1 : x ≤ 1000)
    (hl : (z : ℚ) ≤ x + 1/2) (hr : x + 1/2 < (z : ℚ) + 1) (hc : (z : ℚ) = c) :
    clampRound x = c := by
  unfold clampRound
  have hfl : ⌊x + 1/2⌋ = z := Int.floor_eq_iff.mpr ⟨hl, hr⟩
  rw [clamp1000_of_mem h0 h1, round_eq, hfl, hc]

theorem clampRound_zero : clampRound 0 = 0 := by
  unfold clampRound
  rw [clamp1000_of_mem le_rfl (by norm_num), round_zero, Int.cast_zero]

theorem inv3b_congr {d e : IncidentData} (hs : d.sub_cause_code = e.sub_cause_code)
    (hc : d.cause_code = e.cause_code) : inv3b d = inv3b e := by
  unfold inv3b
  rw [hs, hc]

/-! Branch equations of `updateField`, used to keep the closure proof readable. -/

theorem setIncident_one_eq (d : IncidentData) :
    updateField d (.setIncident 1) =
      { d with incident := 1, message_type := "DENM",
               box_2d := if d.box_2d.length = 2 then d.box_2d else defaultBoxes } := rfl

theorem setIncident_ne_one_eq (d : IncidentData) (v : Int) (hv : v ≠ 1) :
    updateField d (.setIncident v) =
      { d with incident := v, message_type := "none", cause_code := none,
               sub_cause_code := none, cause_text := none, sub_cause_text := none,
               box_2d := [] } := by
  dsimp only [updateField]
  rw [if_neg hv]

theorem setCauseCode_clear_eq (d : IncidentData) (v : Option Int)
    (h : v = none ∨ v = some 0) :
    updateField d (.setCauseCode v) =
      { d with cause_code := none, cause_text := none,
               sub_cause_code := none, sub_cause_text := none } := by
  dsimp only [updateField]
  rw [if_pos h]

theorem setCauseCode_set_eq (d : IncidentData) (v : Option Int)
    (h : ¬(v = none ∨ v = some 0)) :
    updateField d (.setCauseCode v) =
      { d with cause_code := v,
               cause_text := v.bind (fun n => (causeEntry n).map Prod.fst),
               sub_cause_code := none, sub_cause_text := none } := by
  dsimp only [updateField]
  rw [if_neg h]

theorem setSubCauseCode_clear_eq (d : IncidentData) (v : Option Int)
    (h : v = none ∨ v = some 0) :
    updateField d (.setSubCauseCode v) =
      { d with sub_cause_code := none, sub_cause_text := none } := by
  dsimp only [updateField]
  rw [if_pos h]

/-- C1 (amended). Invariant closure of the derivation engine under valid
updates: for every record satisfying the section-3 invariants and every
field update allowed by `ValidUpdate`, the updated record satisfies them
again. -/
theorem updateField_preserves_invariants (d : IncidentData) (u : FieldUpdate)
    (hd : Invariants d) (hu : ValidUpdate d u) :
    Invariants (updateField d u) := by
  obtain ⟨hi1, hi2, hi3, hi4⟩ := hd
  obtain ⟨inc, mt, cc, sc, ct, st, bx, desc⟩ := d
  cases u with
  | setIncident v =>
    by_cases hv : v = 1
    · subst hv
      rw [setIncident_one_eq]
      refine ⟨?_, ?_, ?_, ?_⟩
      · intro h
        exact absurd h one_ne_zero
      · intro _
        refine ⟨rfl, ?_⟩
        by_cases hl : bx.length = 2
        · show (if bx.length = 2 then bx else defaultBoxes).length = 2
          rw [if_pos hl]
          exact hl
        · show (if bx.length = 2 then bx else defaultBoxes).length = 2
          rw [if_neg hl]
          rfl
      · exact hi3
      · intro b hb
        have hb' : b ∈ (if bx.length = 2 then bx else defaultBoxes) := hb
        by_cases hl : bx.length = 2
        · rw [if_pos hl] at hb'
          exact hi4 b hb'
        · rw [if_neg hl] at hb'
          simp only [defaultBoxes, List.mem_cons, List.not_mem_nil, or_false] at hb'
          rcases hb' with rfl | rfl <;> decide
    · rw [setIncident_ne_one_eq _ v hv]
      refine ⟨?_, ?_, rfl, ?_⟩
      · intro _
        exact ⟨rfl, rfl, rfl, rfl, rfl, rfl⟩
      · intro h
        exact absurd h hv
      · intro b hb
        exact absurd hb (List.not_mem_nil b)
  | setMessageType v =>
    obtain ⟨hu0, hu1⟩ := hu
    refine ⟨?_, ?_, hi3, hi4⟩
    · intro h0
      obtain ⟨_, h2, h3, h4, h5, h6⟩ := hi1 h0
      exact ⟨hu0 h0, h2, h3, h4, h5, h6⟩
    · intro h1
      exact ⟨hu1 h1, (hi2 h1).2⟩
  | setCauseCode v =>
    by_cases hc : v = none ∨ v = some 0
    · rw [setCauseCode_clear_eq _ v hc]
      refine ⟨?_, hi2, rfl, hi4⟩
      intro h0
      exact ⟨(hi1 h0).1, rfl, rfl, rfl, rfl, (hi1 h0).2.2.2.2.2⟩
    · rw [setCauseCode_set_eq _ v hc]
      rcases hu with hne | hcc
      · refine ⟨?_, hi2, rfl, hi4⟩
        intro h0
        exact absurd h0 hne
      · exact absurd hcc hc
  | setSubCauseCode v =>
    by_cases hc : v = none ∨ v = some 0
    · rw [setSubCauseCode_clear_eq _ v hc]
      refine ⟨?_, hi2, rfl, hi4⟩
      intro h0
      obtain ⟨h1', h2, _, h4, _, h6⟩ := hi1 h0
      exact ⟨h1', h2, rfl, h4, rfl, h6⟩
    · cases v with
      | none => exact absurd (Or.inl rfl) hc
      | some n =>
        cases cc with
        | none =>
          rcases hu with h | h | h
          · exact absurd (Or.inl h) hc
          · exact absurd (Or.inr h) hc
          · exact h.elim
        | some c =>
          rcases hu with h | h | h
          · exact absurd (Or.inl h) hc
          · exact absurd (Or.inr h) hc
          · have h' : ((causeEntry c).bind (fun info => info.2.lookup n)).isSome = true := h
            cases hce : causeEntry c with
            | none =>
              rw [hce] at h'
              simp at h'
            | some info =>
              rw [hce] at h'
              have heq : updateField ⟨inc, mt, some c, sc, ct, st, bx, desc⟩
                  (.setSubCauseCode (some n)) =
                  ⟨inc, mt, some c, some n, ct, info.2.lookup n, bx, desc⟩ := by
                dsimp only [updateField, lookupCause]
                rw [if_neg hc]
                rw [hce]
              rw [heq]
              refine ⟨?_, hi2, ?_, hi4⟩
              · intro h0
                exact absurd ((hi1 h0).2.1) (by simp)
              · show inv3b ⟨inc, mt, some c, some n, ct, info.2.lookup n, bx, desc⟩ = true
                unfold inv3b
                show (subCauseText c n).isSome = true
                unfold subCauseText
                rw [hce]
                exact h'
  | setCauseText v =>
    refine ⟨?_, hi2, hi3, hi4⟩
    intro h0
    obtain ⟨h1', h2, h3, _, h5, h6⟩ := hi1 h0
    exact ⟨h1', h2, h3, hu h0, h5, h6⟩
  | setSubCauseText v =>
    refine ⟨?_, hi2, hi3, hi4⟩
    intro h0
    obtain ⟨h1', h2, h3, h4, _, h6⟩ := hi1 h0
    exact ⟨h1', h2, h3, h4, hu h0, h6⟩
  | setBox2d v =>
    obtain ⟨hu0, hu1, hu2⟩ := hu
    refine ⟨?_, ?_, hi3, ?_⟩
    · intro h0
      obtain ⟨h1', h2, h3, h4, h5, _⟩ := hi1 h0
      exact ⟨h1', h2, h3, h4, h5, hu0 h0⟩
    · intro h1
      exact ⟨(hi2 h1).1, hu1 h1⟩
    · intro b hb
      exact hu2 b hb
  | setDescription v =>
    exact ⟨fun h0 => hi1 h0, fun h1 => hi2 h1, hi3, fun b hb => hi4 b hb⟩

/-- C1, counterexample: `updateField` is not invariant-closed for every field
and value.  The record `recDenm` satisfies all section-3 invariants, yet
writing sub-cause code 5 while no cause is selected stores a dangling
sub-cause code, violating invariant 3. -/
theorem updateField_not_closed_cex :
    Invariants recDenm ∧
    ¬ Invariants (updateField recDenm (.setSubCauseCode (some 5))) := by
  decide

/-- Witness of the invariant-closure theorem at a concrete valid update. -/
theorem updateField_preserves_invariants_witness :
    Invariants recDenm ∧ ValidUpdate recDenm (.setCauseCode (some 6)) ∧
    Invariants (updateField recDenm (.setCauseCode (some 6))) :=
  ⟨by decide, Or.inl (by decide),
   updateField_preserves_invariants recDenm _ (by decide) (Or.inl (by decide))⟩

/-- C2. Incident toggle derivation: setting the flag to 1 forces DENM and
installs the two default boxes unless two boxes are already present; setting
it to 0 forces the all-clear shape, leaving only the description. -/
theorem incident_toggle (d : IncidentData) :
    updateField d (.setIncident 1) =
      { d with incident := 1, message_type := "DENM",
               box_2d := if d.box_2d.length = 2 then d.box_2d else defaultBoxes } ∧
    updateField d (.setIncident 0) =
      { d with incident := 0, message_type := "none", cause_code := none,
               sub_cause_code := none, cause_text := none, sub_cause_text := none,
               box_2d := [] } :=
  ⟨rfl, rfl⟩

/-- C3 (amended). After a guard-passing `updateBox`, the stored box has the
four space coordinates clamped to integers in [0,1000], while the time
coordinate is carried through unchanged (it is not clamped). -/
theorem updateBox_coords (d : IncidentData) (idx : Nat) (b : IncidentBox)
    (h1 : d.incident = 1) (h2 : d.box_2d.length = 2) (hidx : idx < 2) :
    (updateBox d idx b).box_2d[idx]? = some (clampBox b) ∧
    CoordsWF (clampBox b) ∧ (clampBox b).t = b.t := by
  refine ⟨?_, clampBox_coordsWF b, rfl⟩
  unfold updateBox
  rw [if_pos ⟨h1, h2⟩]
  exact List.getElem?_set_eq_of_lt _ (by omega)


/-- C3, counterexample: the stored time is not clamped to [0,1]; `updateBox`
stores t = 5 verbatim. -/
theorem updateBox_t_unclamped_cex :
    (updateBox recDenm 0 ⟨5, 0, 0, 0, 0⟩).box_2d[0]? = some ⟨5, 0, 0, 0, 0⟩ ∧
    ¬ ((5 : ℚ) ≤ 1) := by
  constructor
  · unfold updateBox
    rw [if_pos ⟨rfl, rfl⟩]
    show (recDenm.box_2d.set 0 (clampBox ⟨5, 0, 0, 0, 0⟩))[0]? = _
    rw [show clampBox ⟨5, 0, 0, 0, 0⟩ = ⟨5, 0, 0, 0, 0⟩ from by
      show (⟨5, clampRound 0, clampRound 0, clampRound 0, clampRound 0⟩ : IncidentBox) = _
      rw [clampRound_zero]]
    rfl
  · norm_num

/-- Witness of `updateBox_coords` at a concrete out-of-range box. -/
theorem updateBox_coords_witness :
    recDenm.incident = 1 ∧ recDenm.box_2d.length = 2 ∧ (0 : Nat) < 2 ∧
    ((updateBox recDenm 0 ⟨1/2, 1500, -3, 2001/2, 200⟩).box_2d[0]? =
        some (clampBox ⟨1/2, 1500, -3, 2001/2, 200⟩) ∧
      CoordsWF (clampBox ⟨1/2, 1500, -3, 2001/2, 200⟩) ∧
      (clampBox ⟨1/2, 1500, -3, 2001/2, 200⟩).t =
        (⟨1/2, 1500, -3, 2001/2, 200⟩ : IncidentBox).t) :=
  ⟨rfl, rfl, by decide, updateBox_coords recDenm 0 _ rfl rfl (by decide)⟩

/-! Branch equations and concrete evaluations of the drag handler. -/

theorem handleMove_draw_none (sx sy cx cy : ℚ) (sb : IncidentBox) (rect : DOMRect)
    (hw : ¬(rect.width = 0 ∨ rect.height = 0))
    (ht : (cx - sx) * (cx - sx) + (cy - sy) * (cy - sy) < 225) :
    handleMove .draw sx sy sb rect cx cy = none := by
  unfold handleMove
  rw [if_neg hw, if_pos rfl]
  dsimp only
  rw [if_pos ht]

theorem handleMove_draw_formula (sx sy cx cy : ℚ) (sb : IncidentBox) (rect : DOMRect)
    (hw : ¬(rect.width = 0 ∨ rect.height = 0))
    (ht : ¬((cx - sx) * (cx - sx) + (cy - sy) * (cy - sy) < 225)) :
    handleMove .draw sx sy sb rect cx cy =
      some ⟨sb.t,
            clamp1000 (min (normalizeCoord (sy - rect.top) rect.height)
                           (normalizeCoord (cy - rect.top) rect.height)),
            clamp1000 (min (normalizeCoord (sx - rect.left) rect.width)
                           (normalizeCoord (cx - rect.left) rect.width)),
            clamp1000 (max (normalizeCoord (sy - rect.top) rect.height)
                           (normalizeCoord (cy - rect.top) rect.height)),
            clamp1000 (max (normalizeCoord (sx - rect.left) rect.width)
                           (normalizeCoord (cx - rect.left) rect.width))⟩ := by
  unfold handleMove
  rw [if_neg hw, if_pos rfl]
  dsimp only
  rw [if_neg ht]

theorem handleMove_draw_eval :
    handleMove .draw 100 100 ⟨3/10, 0, 0, 0, 0⟩ ⟨0, 0, 800, 600⟩ 500 400 =
      some drawCandidate := by
  rw [handleMove_draw_formula 100 100 500 400 ⟨3/10, 0, 0, 0, 0⟩ ⟨0, 0, 800, 600⟩
      (by norm_num) (by norm_num)]
  unfold drawCandidate normalizeCoord
  norm_num
  exact ⟨clamp1000_of_mem (by norm_num) (by norm_num),
         clamp1000_of_mem (by norm_num) (by norm_num),
         clamp1000_of_mem (by norm_num) (by norm_num),
         clamp1000_of_mem (by norm_num) (by norm_num)⟩

theorem handleMove_move_eval :
    handleMove .move 2100 300 ⟨1/10, 0, 0, 100, 100⟩ ⟨0, 0, 1000, 600⟩ 100 300 =
      some ⟨1/10, 0, 0, 100, 0⟩ := by
  unfold handleMove
  rw [if_neg (by norm_num), if_neg (by decide)]
  dsimp only [applyMode]
  norm_num
  refine ⟨?_, ?_, ?_, ?_⟩
  · exact clamp1000_of_mem (by norm_num) (by norm_num)
  · exact clamp1000_nonpos (by norm_num)
  · exact clamp1000_of_mem (by norm_num) (by norm_num)
  · exact clamp1000_nonpos (by norm_num)

theorem clampBox_draw_eval :
    clampBox drawCandidate = ⟨3/10, 167, 125, 667, 625⟩ := by
  show (⟨3/10, clampRound (500/3), clampRound 125, clampRound (2000/3),
         clampRound 625⟩ : IncidentBox) = _
  rw [clampRound_eval (500/3) 167 167 (by norm_num) (by norm_num) (by norm_num)
        (by norm_num) (by norm_num),
      clampRound_eval 125 125 125 (by norm_num) (by norm_num) (by norm_num)
        (by norm_num) (by norm_num),
      clampRound_eval (2000/3) 667 667 (by norm_num) (by norm_num) (by norm_num)
        (by norm_num) (by norm_num),
      clampRound_eval 625 625 625 (by norm_num) (by norm_num) (by norm_num)
        (by norm_num) (by norm_num)]

theorem clampBox_move_eval :
    clampBox ⟨1/10, 0, 0, 100, 0⟩ = ⟨1/10, 0, 0, 100, 0⟩ := by
  show (⟨1/10, clampRound 0, clampRound 0, clampRound 100, clampRound 0⟩ :
         IncidentBox) = _
  rw [clampRound_zero,
      clampRound_eval 100 100 100 (by norm_num) (by norm_num) (by norm_num)
        (by norm_num) (by norm_num)]

theorem clampBox_inverted_eval :
    clampBox ⟨0, 500, 0, 100, 100⟩ = ⟨0, 500, 0, 100, 100⟩ := by
  show (⟨0, clampRound 500, clampRound 0, clampRound 100, clampRound 100⟩ :
         IncidentBox) = _
  rw [clampRound_zero,
      clampRound_eval 500 500 500 (by norm_num) (by norm_num) (by norm_num)
        (by norm_num) (by norm_num),
      clampRound_eval 100 100 100 (by norm_num) (by norm_num) (by norm_num)
        (by norm_num) (by norm_num)]

theorem updateBox_move_eval :
    (updateBox recMove 0 ⟨1/10, 0, 0, 100, 0⟩).box_2d[0]? =
      some ⟨1/10, 0, 0, 100, 0⟩ := by
  unfold updateBox
  rw [if_pos ⟨rfl, rfl⟩]
  show (recMove.box_2d.set 0 (clampBox ⟨1/10, 0, 0, 100, 0⟩))[0]? = _
  rw [clampBox_move_eval]
  rfl

theorem jsOrNullInt_idem (x : Option Int) :
    jsOrNullInt (jsOrNullInt x) = jsOrNullInt x := by
  cases x with
  | none => rfl
  | some n => by_cases h : n = 0 <;> simp [jsOrNullInt, h]

theorem jsOrNullStr_idem (x : Option String) :
    jsOrNullStr (jsOrNullStr x) = jsOrNullStr x := by
  cases x with
  | none => rfl
  | some s => by_cases h : s = "" <;> simp [jsOrNullStr, h]

/-- C4 (amended). Every box emitted by the drag handler satisfies the
min-max ordering on both axes (inverted candidates are reconciled by the
min/max swap), and the ordering survives the clamp-and-round step of
`updateBox`.  `updateBox` itself does not reconcile, so the guarantee covers
drag edits, not direct coordinate edits. -/
theorem handleMove_ordered (mode : DragMode) (sx sy cx cy : ℚ) (sb : IncidentBox)
    (rect : DOMRect) (b : IncidentBox)
    (h : handleMove mode sx sy sb rect cx cy = some b) :
    b.ymin ≤ b.ymax ∧ b.xmin ≤ b.xmax ∧
    (clampBox b).ymin ≤ (clampBox b).ymax ∧
    (clampBox b).xmin ≤ (clampBox b).xmax := by
  have key : ∀ u v : ℚ, clamp1000 (min u v) ≤ clamp1000 (max u v) :=
    fun u v => clamp1000_mono min_le_max
  unfold handleMove at h
  by_cases hd : rect.width = 0 ∨ rect.height = 0
  · rw [if_pos hd] at h
    cases h
  · rw [if_neg hd] at h
    by_cases hm : mode = DragMode.draw
    · rw [if_pos hm] at h
      dsimp only at h
      by_cases ht : (cx - sx) * (cx - sx) + (cy - sy) * (cy - sy) < 225
      · rw [if_pos ht] at h
        cases h
      · rw [if_neg ht] at h
        rw [Option.some.injEq] at h
        subst h
        exact ⟨key _ _, key _ _, clampRound_mono (key _ _), clampRound_mono (key _ _)⟩
    · rw [if_neg hm] at h
      dsimp only at h
      rw [Option.some.injEq] at h
      subst h
      exact ⟨key _ _, key _ _, clampRound_mono (key _ _), clampRound_mono (key _ _)⟩

/-- C4, counterexample: a direct coordinate edit passed through `updateBox`
is not reconciled; the inverted candidate (ymin 500 above ymax 100) is stored
as is. -/
theorem updateBox_no_swap_cex :
    (updateBox recDenm 0 ⟨0, 500, 0, 100, 100⟩).box_2d[0]? =
      some ⟨0, 500, 0, 100, 100⟩ ∧
    ¬ ((500 : ℚ) ≤ 100) := by
  constructor
  · unfold updateBox
    rw [if_pos ⟨rfl, rfl⟩]
    show (recDenm.box_2d.set 0 (clampBox ⟨0, 500, 0, 100, 100⟩))[0]? = _
    rw [clampBox_inverted_eval]
    rfl
  · norm_num

/-- Witness of `handleMove_ordered` at the concrete draw gesture. -/
theorem handleMove_ordered_witness :
    handleMove .draw 100 100 ⟨3/10, 0, 0, 0, 0⟩ ⟨0, 0, 800, 600⟩ 500 400 =
      some drawCandidate ∧
    (drawCandidate.ymin ≤ drawCandidate.ymax ∧
     drawCandidate.xmin ≤ drawCandidate.xmax ∧
     (clampBox drawCandidate).ymin ≤ (clampBox drawCandidate).ymax ∧
     (clampBox drawCandidate).xmin ≤ (clampBox drawCandidate).xmax) :=
  ⟨handleMove_draw_eval,
   handleMove_ordered .draw 100 100 500 400 ⟨3/10, 0, 0, 0, 0⟩ ⟨0, 0, 800, 600⟩
     drawCandidate handleMove_draw_eval⟩

/-- C5. The export transform is idempotent: applying the `downloadJson`
normalization twice gives the same record as applying it once, for every
record. -/
theorem export_idem (d : IncidentData) :
    toStorageForm (toStorageForm d) = toStorageForm d := by
  unfold toStorageForm
  by_cases h : d.incident = 1 <;>
    simp [h, jsOrNullInt_idem, jsOrNullStr_idem]

/-- C6. Draw gesture geometry: while the squared pointer travel is below the
15-pixel threshold the handler ignores the move; above it, the candidate box
is computed directly from the rectangle spanning the drag origin and the
current pointer (not incrementally), with the start-box time carried through;
in an 800 by 600 container, a drag from (100,100) to (500,400) stores the box
(t unchanged, 167, 125, 667, 625). -/
theorem draw_gesture (sx sy cx cy : ℚ) (sb : IncidentBox) (rect : DOMRect)
    (hw : rect.width ≠ 0) (hh : rect.height ≠ 0) :
    ((cx - sx) * (cx - sx) + (cy - sy) * (cy - sy) < 225 →
      handleMove .draw sx sy sb rect cx cy = none) ∧
    (¬((cx - sx) * (cx - sx) + (cy - sy) * (cy - sy) < 225) →
      handleMove .draw sx sy sb rect cx cy =
        some ⟨sb.t,
              clamp1000 (min (normalizeCoord (sy - rect.top) rect.height)
                             (normalizeCoord (cy - rect.top) rect.height)),
              clamp1000 (min (normalizeCoord (sx - rect.left) rect.width)
                             (normalizeCoord (cx - rect.left) rect.width)),
              clamp1000 (max (normalizeCoord (sy - rect.top) rect.height)
                             (normalizeCoord (cy - rect.top) rect.height)),
              clamp1000 (max (normalizeCoord (sx - rect.left) rect.width)
                             (normalizeCoord (cx - rect.left) rect.width))⟩) ∧
    ((handleMove .draw 100 100 ⟨3/10, 0, 0, 0, 0⟩ ⟨0, 0, 800, 600⟩ 500 400).map
        (fun nb => (updateBox recDraw 0 nb).box_2d[0]?) =
      some (some ⟨3/10, 167, 125, 667, 625⟩)) := by
  have hw' : ¬(rect.width = 0 ∨ rect.height = 0) := by tauto
  refine ⟨fun ht => handleMove_draw_none sx sy cx cy sb rect hw' ht,
          fun ht => handleMove_draw_formula sx sy cx cy sb rect hw' ht, ?_⟩
  rw [handleMove_draw_eval]
  show some ((updateBox recDraw 0 drawCandidate).box_2d[0]?) = _
  unfold updateBox
  rw [if_pos ⟨rfl, rfl⟩]
  show some ((recDraw.box_2d.set 0 (clampBox drawCandidate))[0]?) = _
  rw [clampBox_draw_eval]
  rfl

/-- Witness of `draw_gesture`: the scenario gesture lands at the predicted
candidate box. -/
theorem draw_gesture_witness :
    handleMove .draw 100 100 ⟨3/10, 0, 0, 0, 0⟩ ⟨0, 0, 800, 600⟩ 500 400 =
      some drawCandidate :=
  ((draw_gesture 100 100 500 400 ⟨3/10, 0, 0, 0, 0⟩ ⟨0, 0, 800, 600⟩
      (by norm_num) (by norm_num)).2.1 (by norm_num)).trans
    (by
      unfold drawCandidate normalizeCoord
      norm_num
      exact ⟨clamp1000_of_mem (by norm_num) (by norm_num),
             clamp1000_of_mem (by norm_num) (by norm_num),
             clamp1000_of_mem (by norm_num) (by norm_num),
             clamp1000_of_mem (by norm_num) (by norm_num)⟩)

/-- C7 (amended). Move-clamp scenario: from box (0.1, 0, 0, 100, 100), a
move drag equivalent to dx of -2000 pixels stores (0.1, 0, 0, 100, 0): the
min coordinates clamp to 0 with no negative drift, but xMax is also clamped
to 0, collapsing the box width. -/
theorem move_clamp_scenario :
    (handleMove .move 2100 300 ⟨1/10, 0, 0, 100, 100⟩ ⟨0, 0, 1000, 600⟩ 100 300).map
        (fun nb => (updateBox recMove 0 nb).box_2d[0]?) =
      some (some ⟨1/10, 0, 0, 100, 0⟩) := by
  rw [handleMove_move_eval]
  show some ((updateBox recMove 0 ⟨1/10, 0, 0, 100, 0⟩).box_2d[0]?) = _
  rw [updateBox_move_eval]

/-- C7, counterexample: the stored box of the move-clamp scenario is not the
unchanged (0.1, 0, 0, 100, 100) that the claim predicts; its xMax is 0. -/
theorem move_clamp_cex :
    (handleMove .move 2100 300 ⟨1/10, 0, 0, 100, 100⟩ ⟨0, 0, 1000, 600⟩ 100 300).map
        (fun nb => (updateBox recMove 0 nb).box_2d[0]?) ≠
      some (some ⟨1/10, 0, 0, 100, 100⟩) := by
  rw [handleMove_move_eval]
  show some ((updateBox recMove 0 ⟨1/10, 0, 0, 100, 0⟩).box_2d[0]?) ≠ _
  rw [updateBox_move_eval]
  intro hcontra
  rw [Option.some.injEq, Option.some.injEq, IncidentBox.mk.injEq] at hcontra
  have : (0 : ℚ) = 100 := hcontra.2.2.2.2
  norm_num at this

/-- C8. Cause and sub-cause coupling: selecting cause 6 clears the sub-cause
code and text and sets the cause text to the table name of code 6; then
selecting sub-cause 5 sets the sub-cause text to "ice on road". -/
theorem cause_subcause_coupling (d : IncidentData) (h : d.incident = 1) :
    (updateField d (.setCauseCode (some 6))).sub_cause_code = none ∧
    (updateField d (.setCauseCode (some 6))).sub_cause_text = none ∧
    (updateField d (.setCauseCode (some 6))).cause_text =
      some "adverseWeatherCondition-adhesion" ∧
    (updateField (updateField d (.setCauseCode (some 6)))
        (.setSubCauseCode (some 5))).sub_cause_text = some "ice on road" :=
  ⟨rfl, rfl, rfl, rfl⟩

/-- Witness of `cause_subcause_coupling` at the concrete DENM record. -/
theorem cause_subcause_coupling_witness :
    recDenm.incident = 1 ∧
    ((updateField recDenm (.setCauseCode (some 6))).sub_cause_code = none ∧
     (updateField recDenm (.setCauseCode (some 6))).sub_cause_text = none ∧
     (updateField recDenm (.setCauseCode (some 6))).cause_text =
       some "adverseWeatherCondition-adhesion" ∧
     (updateField (updateField recDenm (.setCauseCode (some 6)))
         (.setSubCauseCode (some 5))).sub_cause_text = some "ice on road") :=
  ⟨rfl, cause_subcause_coupling recDenm rfl⟩

/-- C9. The box mutation is guarded: on a record with the incident flag not 1
or without exactly two boxes, `updateBox` is a silent no-op. -/
theorem updateBox_guard (d : IncidentData) (idx : Nat) (b : IncidentBox)
    (h : d.incident ≠ 1 ∨ d.box_2d.length ≠ 2) :
    updateBox d idx b = d := by
  unfold updateBox
  rw [if_neg]
  tauto

/-- Witness of `updateBox_guard` at the all-clear record. -/
theorem updateBox_guard_witness :
    (recNone.incident ≠ 1 ∨ recNone.box_2d.length ≠ 2) ∧
    updateBox recNone 0 ⟨0, 1, 2, 3, 4⟩ = recNone :=
  ⟨by decide, updateBox_guard recNone 0 ⟨0, 1, 2, 3, 4⟩ (by decide)⟩

/-- C10. The value 0 is conflated with the unset sentinel for sub-cause
codes: writing sub-cause 0 clears the code and the text, although 0 is a
valid sub-cause key of causes 6, 9, 10, 11, 12, 14, 15 and 18, so sub-cause
code 0 can never be stored through the derivation engine. -/
theorem subcause_zero_sentinel (d : IncidentData) :
    (updateField d (.setSubCauseCode (some 0))).sub_cause_code = none ∧
    (updateField d (.setSubCauseCode (some 0))).sub_cause_text = none ∧
    (subCauseText 6 0).isSome = true ∧ (subCauseText 9 0).isSome = true ∧
    (subCauseText 10 0).isSome = true ∧ (subCauseText 11 0).isSome = true ∧
    (subCauseText 12 0).isSome = true ∧ (subCauseText 14 0).isSome = true ∧
    (subCauseText 15 0).isSome = true ∧ (subCauseText 18 0).isSome = true := by
  refine ⟨rfl, rfl, ?_, ?_, ?_, ?_, ?_, ?_, ?_, ?_⟩ <;> decide
